import Mathlib

/-!
Verification of the `sqlalchemy-media` repository's specified behaviour.

The repository ships the demo application `examples/restfulpy_demo/restfulpy_demo.py`
and the test file `sqlalchemy_media/tests/test_collections.py`.  The library
package itself (attachments, stores, validators) is exercised by those files but
its sources are not part of the checkout; where a definition below embeds that
missing library code it is modelled from the specification text and carries a
doc comment starting with `Modelled from the spec:`.  Everything else is a
direct shallow embedding of the Python sources.
-/

/-! ## Content-addressable storage model (claims about File / FileList / FileDict) -/

/-- Byte content of an attachment, one natural number per byte. -/
abbrev Content := List Nat

/-- Modelled from the spec: "content-addressable storage" / "content hashing".
The library function that derives the storage key for a piece of content is not
under `src/`; the spec states the stored path is determined by hashing the
content, so the hash is modelled as an injective encoding of the byte list. -/
def contentHash : Content → Nat
  | [] => 0
  | b :: rest => Nat.pair b (contentHash rest) + 1

theorem contentHash_inj : ∀ a b : Content, contentHash a = contentHash b → a = b := by
  intro a
  induction a with
  | nil =>
    intro b h
    cases b with
    | nil => rfl
    | cons d ds => simp [contentHash] at h
  | cons c cs ih =>
    intro b h
    cases b with
    | nil => simp [contentHash] at h
    | cons d ds =>
      simp only [contentHash, Nat.add_right_cancel_iff, Nat.pair_eq_pair] at h
      obtain ⟨h1, h2⟩ := h
      rw [h1, ih ds h2]

/-- Modelled from the spec: a `File` attachment; it records the content it was
created from or last attached with. -/
structure File where
  content : Content
deriving DecidableEq

/-- Modelled from the spec: the stored path of a `File` is determined by
hashing its content. -/
def File.path (f : File) : Nat := contentHash f.content

/-- A `FileList` column value: an ordered collection of `File` attachments. -/
abbrev FileList := List File

/-- A `FileDict` column value: a keyed collection of `File` attachments. -/
abbrev FileDict := List (String × File)

/-- Modelled from the spec: the state a `StoreManager` bound to a session keeps:
the set of paths currently present in the store, plus the paths registered to be
deleted after the session commits respectively after it rolls back
("commit/rollback-aware lifecycle (orphan cleanup, overwrite-on-commit)"). -/
structure SMState where
  files : List Nat
  deleteAfterCommit : List Nat
  deleteAfterRollback : List Nat
deriving DecidableEq

/-- The state of a store manager that has just been created or committed:
nothing stored yet, nothing scheduled. -/
def SMState.init : SMState := ⟨[], [], []⟩

/-- Modelled from the spec: storing a new file writes its path into the store
and registers it for deletion should the session roll back. -/
def SMState.put (st : SMState) (p : Nat) : SMState :=
  { st with
      files := p :: st.files
      deleteAfterRollback := p :: st.deleteAfterRollback }

/-- Modelled from the spec: `File.create_from(stream)` stores the content under
its hash-derived path and returns the new attachment. -/
def SMState.createFrom (st : SMState) (c : Content) : SMState × File :=
  (st.put (contentHash c), ⟨c⟩)

/-- Modelled from the spec: `file.attach(stream)` on an already stored
attachment stores the new content under its own path and registers the
previously stored path for deletion after the next commit
("overwrite-on-commit" with "orphan cleanup"). -/
def SMState.attach (st : SMState) (f : File) (c : Content) : SMState × File :=
  let st' := st.put (contentHash c)
  ({ st' with deleteAfterCommit := f.path :: st'.deleteAfterCommit }, ⟨c⟩)

/-- Modelled from the spec: committing the session deletes every path
registered for deletion after commit (the orphans) and clears both schedules. -/
def SMState.commit (st : SMState) : SMState :=
  { files := st.files.filter (fun p => decide (p ∉ st.deleteAfterCommit))
    deleteAfterCommit := []
    deleteAfterRollback := [] }

/-- Serialisation of a `FileList` into its JSON column value, keeping each
attachment's content descriptor. -/
def dumpFileList (fl : FileList) : List Content := fl.map File.content

/-- Deserialisation of a `FileList` column value when the record is queried
back from the database. -/
def loadFileList (cs : List Content) : FileList := cs.map File.mk

/-- The test scenario of `test_file_list`: an empty session stores three files
created from three byte streams, appends them to a `FileList`, and commits. -/
def fileListScenario (c1 c2 c3 : Content) : SMState × FileList :=
  let r1 := SMState.init.createFrom c1
  let r2 := r1.1.createFrom c2
  let r3 := r2.1.createFrom c3
  (r3.1.commit, [r1.2, r2.2, r3.2])

/-- The test scenario of `test_file_dict`: the same three streams keyed
`first`, `second`, `third`. -/
def fileDictScenario (c1 c2 c3 : Content) : SMState × FileDict :=
  let r1 := SMState.init.createFrom c1
  let r2 := r1.1.createFrom c2
  let r3 := r2.1.createFrom c3
  (r3.1.commit, [("first", r1.2), ("second", r2.2), ("third", r3.2)])

theorem mem_commit_files (st : SMState) (p : Nat) :
    p ∈ st.commit.files ↔ p ∈ st.files ∧ p ∉ st.deleteAfterCommit := by
  simp [SMState.commit, List.mem_filter]

/-- C3: the stored path is determined by hashing the content, so re-attaching
different content to a `File` yields a stored path distinct from the one the
original content produced. -/
theorem attach_different_content_different_path
    (st : SMState) (f : File) (c' : Content) (hne : c' ≠ f.content) :
    ((st.attach f c').2).path ≠ f.path := by
  intro h
  exact hne (contentHash_inj _ _ h)

/-- Witness for `attach_different_content_different_path` at concrete content. -/
theorem attach_different_content_different_path_witness :
    ([3, 4] : Content) ≠ (File.mk [1, 2]).content ∧
      ((SMState.init.attach (File.mk [1, 2]) [3, 4]).2).path ≠ (File.mk [1, 2]).path :=
  ⟨by decide,
    attach_different_content_different_path SMState.init (File.mk [1, 2]) [3, 4] (by decide)⟩

/-- Serialisation of a `FileDict` into its JSON column value. -/
def dumpFileDict (fd : FileDict) : List (String × Content) :=
  fd.map (fun kv => (kv.1, kv.2.content))

/-- Deserialisation of a `FileDict` column value on query. -/
def loadFileDict (cs : List (String × Content)) : FileDict :=
  cs.map (fun kv => (kv.1, File.mk kv.2))

/-- C1: for a persisted `File` held in a `FileList` of a committed record
(`deleteAfterCommit` is empty after the commit, the file's path is stored),
attaching new content and committing removes the previously stored path from
the store while the newly stored path is present. -/
theorem overwrite_on_commit
    (st : SMState) (fl : FileList) (f : File) (c' : Content)
    (_hmem : f ∈ fl) (_hstored : f.path ∈ st.files)
    (hclean : st.deleteAfterCommit = []) (hne : c' ≠ f.content) :
    f.path ∉ ((st.attach f c').1.commit).files ∧
      ((st.attach f c').2).path ∈ ((st.attach f c').1.commit).files := by
  have hpath : contentHash c' ≠ f.path := fun h => hne (contentHash_inj _ _ h)
  constructor
  · intro hin
    rw [mem_commit_files] at hin
    exact hin.2 (by simp [SMState.attach, SMState.put, hclean])
  · rw [mem_commit_files]
    refine ⟨by simp [SMState.attach, SMState.put, File.path], ?_⟩
    simp [SMState.attach, SMState.put, File.path, hclean]
    exact hpath

/-- Witness for `overwrite_on_commit` on the state reached after committing a
single file created from `[1, 2]`, then attaching `[3, 4]`. -/
theorem overwrite_on_commit_witness :
    (File.mk [1, 2]) ∈ ([File.mk [1, 2]] : FileList) ∧
      (File.mk [1, 2]).path ∈ (SMState.mk [contentHash [1, 2]] [] []).files ∧
      (SMState.mk [contentHash [1, 2]] [] []).deleteAfterCommit = [] ∧
      ([3, 4] : Content) ≠ (File.mk [1, 2]).content ∧
      ((File.mk [1, 2]).path ∉
          (((SMState.mk [contentHash [1, 2]] [] []).attach (File.mk [1, 2]) [3, 4]).1.commit).files ∧
        (((SMState.mk [contentHash [1, 2]] [] []).attach (File.mk [1, 2]) [3, 4]).2).path ∈
          (((SMState.mk [contentHash [1, 2]] [] []).attach (File.mk [1, 2]) [3, 4]).1.commit).files) :=
  ⟨by decide, by decide, by decide, by decide,
    overwrite_on_commit (SMState.mk [contentHash [1, 2]] [] []) [File.mk [1, 2]]
      (File.mk [1, 2]) [3, 4] (by decide) (by decide) (by decide) (by decide)⟩

/-- C2: storing a record whose column holds a `FileList` with three appended
files (respectively a `FileDict` with three keyed files) and committing, then
querying it back through the JSON round trip, yields a collection of length 3
every element (respectively value) of which is a `File` whose stored path
exists in the store. -/
theorem collections_store_roundtrip (c1 c2 c3 : Content) :
    (loadFileList (dumpFileList (fileListScenario c1 c2 c3).2)).length = 3 ∧
      (∀ f ∈ loadFileList (dumpFileList (fileListScenario c1 c2 c3).2),
        f.path ∈ (fileListScenario c1 c2 c3).1.files) ∧
      (loadFileDict (dumpFileDict (fileDictScenario c1 c2 c3).2)).length = 3 ∧
      (∀ kv ∈ loadFileDict (dumpFileDict (fileDictScenario c1 c2 c3).2),
        (kv.2).path ∈ (fileDictScenario c1 c2 c3).1.files) := by
  refine ⟨rfl, ?_, rfl, ?_⟩
  · intro f hf
    simp [loadFileList, dumpFileList, fileListScenario, SMState.createFrom] at hf
    rcases hf with h | h | h <;>
      simp [h, fileListScenario, SMState.createFrom, SMState.put, SMState.commit, SMState.init, File.path]
  · intro kv hkv
    simp [loadFileDict, dumpFileDict, fileDictScenario, SMState.createFrom] at hkv
    rcases hkv with h | h | h <;>
      simp [h, fileDictScenario, SMState.createFrom, SMState.put, SMState.commit, SMState.init, File.path]

/-! ## The demo's Avatar type and its validation pipeline
(`examples/restfulpy_demo/restfulpy_demo.py`) -/

/-- The exceptions of `sqlalchemy_media.exceptions` that the demo imports, as
disjoint error values. -/
inductive AttachmentError
  | dimensionValidation
  | aspectRatioValidation
  | contentTypeValidation
  | maximumLengthIsReached
  | minimumLengthIsNotReached
deriving DecidableEq

/-- An uploaded file, described by the attributes the analyzers derive from its
bytes: the content type magic sniffing detects, the image dimensions image
analysis detects, and the byte length. -/
structure UploadInput where
  magicContentType : String
  imageWidth : Nat
  imageHeight : Nat
  byteLength : Nat
deriving DecidableEq

/-- Modelled from the spec: the attachment descriptor the pre-processors fill
in turn ("validators-as-pipeline"): analyzers record what they detected,
validators read what has been recorded so far.  The aspect-ratio comparison
`width / height < bound` is carried out exactly, by cross-multiplying with the
bound's denominator, which agrees with the division whenever the height is
positive. -/
structure AnalyzeState where
  contentType : Option String := none
  width : Option Nat := none
  height : Option Nat := none
deriving DecidableEq

/-- The pre-processor kinds the demo composes:
`MagicAnalyzer`, `ContentTypeValidator`, `ImageAnalyzer`, `ImageValidator`. -/
inductive Processor
  | magicAnalyzer
  | contentTypeValidator (allowed : List String)
  | imageAnalyzer
  | imageValidator (minimum maximum : Nat × Nat)
      (minAspectRatio maxAspectRatio : ℚ) (contentTypes : List String)
deriving DecidableEq

/-- Modelled from the spec: running one pre-processor on the upload.
`MagicAnalyzer` records the detected content type, `ContentTypeValidator`
rejects a content type outside its allowed list, `ImageAnalyzer` records the
image dimensions, `ImageValidator` checks content type, then width and height
against the minimum and maximum, then the aspect ratio `width / height`
against its bounds. -/
def runProcessor (inp : UploadInput) (d : AnalyzeState) :
    Processor → Except AttachmentError AnalyzeState
  | .magicAnalyzer => .ok { d with contentType := some inp.magicContentType }
  | .contentTypeValidator allowed =>
    match d.contentType with
    | some t => if t ∈ allowed then .ok d else .error .contentTypeValidation
    | none => .error .contentTypeValidation
  | .imageAnalyzer =>
    .ok { d with width := some inp.imageWidth, height := some inp.imageHeight }
  | .imageValidator mn mx minRatio maxRatio cts =>
    match d.contentType, d.width, d.height with
    | some t, some w, some h =>
      if t ∉ cts then .error .contentTypeValidation
      else if w < mn.1 ∨ mx.1 < w then .error .dimensionValidation
      else if h < mn.2 ∨ mx.2 < h then .error .dimensionValidation
      else if (w : ℤ) * minRatio.den < minRatio.num * (h : ℤ) then
        .error .aspectRatioValidation
      else if maxRatio.num * (h : ℤ) < (w : ℤ) * maxRatio.den then
        .error .aspectRatioValidation
      else .ok d
    | _, _, _ => .error .dimensionValidation

/-- Modelled from the spec: the pre-processors run as an ordered pipeline; the
first error aborts the rest. -/
def runPipeline (inp : UploadInput) :
    List Processor → AnalyzeState → Except AttachmentError AnalyzeState
  | [], d => .ok d
  | p :: ps, d =>
    match runProcessor inp d p with
    | .ok d' => runPipeline inp ps d'
    | .error e => .error e

/-- The `KB` constant of `sqlalchemy_media.constants`. -/
def KB : Nat := 1024

/-- The content types `Avatar` accepts (`restfulpy_demo.py` lines 32-35). -/
def Avatar.allowedContentTypes : List String := ["image/jpeg", "image/png"]

/-- The `Avatar.__pre_processors__` list (`restfulpy_demo.py` lines 30-44). -/
def Avatar.preProcessors : List Processor :=
  [ .magicAnalyzer,
    .contentTypeValidator Avatar.allowedContentTypes,
    .imageAnalyzer,
    .imageValidator (100, 100) (500, 500) 1 1 Avatar.allowedContentTypes ]

/-- The `Avatar.__max_length__` constant, 50 KB. -/
def Avatar.maxLength : Nat := 50 * KB

/-- The `Avatar.__min_length__` constant, 1 KB. -/
def Avatar.minLength : Nat := 1 * KB

/-- A successfully created `Avatar` attachment. -/
structure AvatarFile where
  info : UploadInput
deriving DecidableEq

/-- Modelled from the spec: `Avatar.create_from(value)` runs the pre-processor
pipeline over the upload, then enforces the length bounds while the content is
copied into the store, raising `MaximumLengthIsReachedError` past
`__max_length__` (and the minimum-length error below `__min_length__`). -/
def Avatar.createFrom (inp : UploadInput) : Except AttachmentError AvatarFile :=
  match runPipeline inp Avatar.preProcessors {} with
  | .error e => .error e
  | .ok _ =>
    if Avatar.maxLength < inp.byteLength then .error .maximumLengthIsReached
    else if inp.byteLength < Avatar.minLength then .error .minimumLengthIsNotReached
    else .ok ⟨inp⟩

/-- What `Person._set_avatar` can raise: a `nanohttp.HTTPStatus` with a status
code, or an exception it has no handler for. -/
inductive SetAvatarError
  | httpStatus (code : Nat)
  | unhandled (e : AttachmentError)
deriving DecidableEq

/-- The `Person._set_avatar` setter (`restfulpy_demo.py` lines 67-85): `None`
is assigned straight through; otherwise `Avatar.create_from` runs and its
validation errors are translated to the statuses 600, 601, 602 and 603. -/
def setAvatar (value : Option UploadInput) : Except SetAvatarError (Option AvatarFile) :=
  match value with
  | none => .ok none
  | some v =>
    match Avatar.createFrom v with
    | .ok a => .ok (some a)
    | .error .dimensionValidation => .error (.httpStatus 600)
    | .error .aspectRatioValidation => .error (.httpStatus 601)
    | .error .contentTypeValidation => .error (.httpStatus 602)
    | .error .maximumLengthIsReached => .error (.httpStatus 603)
    | .error e => .error (.unhandled e)

/-- The observable HTTP status of `Root.post` for a given avatar form field:
200 on success, the raised `HTTPStatus` code on a handled validation failure,
500 on an exception the controller does not handle. -/
def postStatus (value : Option UploadInput) : Nat :=
  match setAvatar value with
  | .ok _ => 200
  | .error (.httpStatus c) => c
  | .error (.unhandled _) => 500

/-- C4: for every non-`None` value assigned to `Person.avatar`, the setter
raises `HTTPStatus` 600 iff `Avatar.create_from` raises
`DimensionValidationError`, 601 iff `AspectRatioValidationError`, 602 iff
`ContentTypeValidationError`, 603 iff `MaximumLengthIsReachedError`; on
success `_avatar` is set to the created `Avatar` and nothing is raised. -/
theorem set_avatar_status_mapping (v : UploadInput) :
    (setAvatar (some v) = .error (.httpStatus 600) ↔
      Avatar.createFrom v = .error .dimensionValidation) ∧
      (setAvatar (some v) = .error (.httpStatus 601) ↔
        Avatar.createFrom v = .error .aspectRatioValidation) ∧
      (setAvatar (some v) = .error (.httpStatus 602) ↔
        Avatar.createFrom v = .error .contentTypeValidation) ∧
      (setAvatar (some v) = .error (.httpStatus 603) ↔
        Avatar.createFrom v = .error .maximumLengthIsReached) ∧
      (∀ a, Avatar.createFrom v = .ok a → setAvatar (some v) = .ok (some a)) := by
  rcases h : Avatar.createFrom v with e | a
  · cases e <;> simp [setAvatar, h]
  · simp [setAvatar, h]

/-- Witness for `set_avatar_status_mapping` at the valid 150x150 JPEG upload of
the test suite. -/
theorem set_avatar_status_mapping_witness :
    setAvatar (some ⟨"image/jpeg", 150, 150, 20 * KB⟩) =
      .ok (some ⟨⟨"image/jpeg", 150, 150, 20 * KB⟩⟩) :=
  (set_avatar_status_mapping ⟨"image/jpeg", 150, 150, 20 * KB⟩).2.2.2.2
    ⟨⟨"image/jpeg", 150, 150, 20 * KB⟩⟩ rfl

/-- C5: the pre-processors of `Avatar` run in the order `MagicAnalyzer`,
`ContentTypeValidator`, `ImageAnalyzer`, `ImageValidator`, so every upload
whose detected content type is neither `image/jpeg` nor `image/png` fails with
`ContentTypeValidationError`, before any dimension or aspect-ratio check. -/
theorem content_type_validated_before_dimensions (v : UploadInput)
    (h : v.magicContentType ∉ Avatar.allowedContentTypes) :
    Avatar.preProcessors =
      [ .magicAnalyzer,
        .contentTypeValidator Avatar.allowedContentTypes,
        .imageAnalyzer,
        .imageValidator (100, 100) (500, 500) 1 1 Avatar.allowedContentTypes ] ∧
      Avatar.createFrom v = .error .contentTypeValidation := by
  refine ⟨rfl, ?_⟩
  simp [Avatar.createFrom, Avatar.preProcessors, runPipeline, runProcessor, h]

/-- Witness for `content_type_validated_before_dimensions` at the PDF upload
of the test suite. -/
theorem content_type_validated_before_dimensions_witness :
    ("application/pdf" : String) ∉ Avatar.allowedContentTypes ∧
      Avatar.createFrom ⟨"application/pdf", 0, 0, 20 * KB⟩ =
        .error .contentTypeValidation :=
  ⟨by decide,
    (content_type_validated_before_dimensions ⟨"application/pdf", 0, 0, 20 * KB⟩
      (by decide)).2⟩

/-- C6 counterexample: the avatar of content type `image/gif` with dimensions
550x550 gets status 602, not the claimed 600, because the content-type check
precedes the dimension check; and the 550x550 JPEG of 51 KB, which exceeds the
50 KB maximum length, gets status 600, not the claimed 603, because the
dimension check precedes the length check. -/
theorem avatar_limits_counterexample :
    postStatus (some ⟨"image/gif", 550, 550, 10 * KB⟩) = 602 ∧
      postStatus (some ⟨"image/jpeg", 550, 550, 51 * KB⟩) = 600 ∧
      50 * KB < 51 * KB :=
  ⟨rfl, rfl, by decide⟩

/-- Helper: if the `Avatar` pre-processor pipeline succeeds, the upload's
content type is allowed, both dimensions lie in `[100, 500]`, and the aspect
ratio is exactly 1. -/
theorem avatar_pipeline_ok (v : UploadInput) (d : AnalyzeState)
    (h : runPipeline v Avatar.preProcessors {} = .ok d) :
    v.magicContentType ∈ Avatar.allowedContentTypes ∧
      100 ≤ v.imageWidth ∧ v.imageWidth ≤ 500 ∧
      100 ≤ v.imageHeight ∧ v.imageHeight ≤ 500 ∧
      v.imageWidth = v.imageHeight := by
  simp [Avatar.preProcessors, runPipeline, runProcessor] at h
  by_cases hmem : v.magicContentType ∈ Avatar.allowedContentTypes
  · by_cases hw : v.imageWidth < 100 ∨ 500 < v.imageWidth
    · simp [hmem, hw] at h
    · by_cases hh : v.imageHeight < 100 ∨ 500 < v.imageHeight
      · simp [hmem, hw, hh] at h
      · by_cases hr1 : v.imageWidth < v.imageHeight
        · simp [hmem, hw, hh, hr1] at h
        · by_cases hr2 : v.imageHeight < v.imageWidth
          · simp [hmem, hw, hh, hr1, hr2] at h
          · exact ⟨hmem, by omega, by omega, by omega, by omega, by omega⟩
  · simp [hmem] at h

/-- C6 as amended: a created `Avatar` has an allowed content type, dimensions
within `[100, 100] x [500, 500]`, aspect ratio exactly 1 and byte length
between `__min_length__` (1 KB) and `__max_length__` (50 KB); an upload of
allowed content type whose dimensions fall outside those bounds gets status
600; and an upload of allowed content type with valid dimensions and aspect
ratio exceeding 50 KB gets status 603. -/
theorem avatar_limits (v : UploadInput) :
    Avatar.minLength = 1 * KB ∧ Avatar.maxLength = 50 * KB ∧
      (∀ a, Avatar.createFrom v = .ok a →
        v.magicContentType ∈ Avatar.allowedContentTypes ∧
          100 ≤ v.imageWidth ∧ v.imageWidth ≤ 500 ∧
          100 ≤ v.imageHeight ∧ v.imageHeight ≤ 500 ∧
          v.imageWidth = v.imageHeight ∧
          Avatar.minLength ≤ v.byteLength ∧ v.byteLength ≤ Avatar.maxLength) ∧
      (v.magicContentType ∈ Avatar.allowedContentTypes →
        (v.imageWidth < 100 ∨ 500 < v.imageWidth ∨
          v.imageHeight < 100 ∨ 500 < v.imageHeight) →
        postStatus (some v) = 600) ∧
      (v.magicContentType ∈ Avatar.allowedContentTypes →
        100 ≤ v.imageWidth → v.imageWidth ≤ 500 →
        100 ≤ v.imageHeight → v.imageHeight ≤ 500 →
        v.imageWidth = v.imageHeight →
        Avatar.maxLength < v.byteLength →
        postStatus (some v) = 603) := by
  refine ⟨rfl, rfl, ?_, ?_, ?_⟩
  · intro a h
    rcases hp : runPipeline v Avatar.preProcessors {} with e | d
    · simp [Avatar.createFrom, hp] at h
    · obtain ⟨hmem, hw1, hw2, hh1, hh2, heq⟩ := avatar_pipeline_ok v d hp
      refine ⟨hmem, hw1, hw2, hh1, hh2, heq, ?_, ?_⟩ <;>
        · simp [Avatar.createFrom, hp] at h
          split_ifs at h with hmax hmin <;> omega
  · intro hmem hdims
    by_cases hw : v.imageWidth < 100 ∨ 500 < v.imageWidth
    · simp [postStatus, setAvatar, Avatar.createFrom, Avatar.preProcessors,
        runPipeline, runProcessor, hmem, hw]
    · have hh : v.imageHeight < 100 ∨ 500 < v.imageHeight := by omega
      simp [postStatus, setAvatar, Avatar.createFrom, Avatar.preProcessors,
        runPipeline, runProcessor, hmem, hw, hh]
  · intro hmem h1 h2 h3 h4 heq hlen
    have hw : ¬(v.imageWidth < 100 ∨ 500 < v.imageWidth) := by omega
    have hh : ¬(v.imageHeight < 100 ∨ 500 < v.imageHeight) := by omega
    simp [postStatus, setAvatar, Avatar.createFrom, Avatar.preProcessors,
      runPipeline, runProcessor, hmem, hw, hh, heq, hlen]

/-- Witness for `avatar_limits` at the over-length 150x150 JPEG of the test
suite (the `avatar-maximum-length.jpg` case, expected status 603). -/
theorem avatar_limits_witness :
    postStatus (some ⟨"image/jpeg", 150, 150, 60 * KB⟩) = 603 :=
  (avatar_limits ⟨"image/jpeg", 150, 150, 60 * KB⟩).2.2.2.2 (by decide) (by decide)
    (by decide) (by decide) (by decide) rfl (by decide)

/-! ## The demo's HTML view layer (`MasterPageView`, `Root.get`) -/

set_option maxRecDepth 4096

/-- Python's `%` formatting for a format string carrying exactly one `%s`
conversion, over character lists: the first `%s` is replaced by the argument,
every other character is copied. -/
def substPercentS : List Char → List Char → List Char
  | [], _ => []
  | '%' :: 's' :: rest, arg => arg ++ rest
  | c :: rest, arg => c :: substPercentS rest arg

/-- The `MasterPageView.header` class attribute (`restfulpy_demo.py` line 97).
The string literal `'</head><body>'` on the following line 98 is a standalone
expression statement, a separate simple statement that is evaluated and
discarded; it is not concatenated into this attribute. -/
def MasterPageView.headerFmt : String :=
  "<!DOCTYPE html><head><meta charset=\"utf-8\"><title>%s</title>"

/-- The `MasterPageView.footer` class attribute (`restfulpy_demo.py` line 99). -/
def MasterPageView.footer : String := "</body>"

/-- `MasterPageView.__str__` (`restfulpy_demo.py` lines 105-106):
`(self.header % self.title) + self.body + self.footer`. -/
def MasterPageView.render (title body : String) : String :=
  ⟨substPercentS MasterPageView.headerFmt.data title.data⟩ ++ body ++ MasterPageView.footer

/-- Whether `pat` occurs as a contiguous substring of `s`. -/
def occursIn : List Char → List Char → Bool
  | pat, [] => pat.isEmpty
  | pat, c :: rest => pat.isPrefixOf (c :: rest) || occursIn pat rest

/-- String-level wrapper of `occursIn`. -/
def strContains (s pat : String) : Bool := occursIn pat.data s.data

/-- The body `Root.get` accumulates into the page with `+=`
(`restfulpy_demo.py` lines 122-126). -/
def Root.formBody : String :=
  "<form method=\"POST\" action=\"/\" enctype=\"multipart/form-data\">"
  ++ "<input type=\"text\" name=\"name\" value=\"Your Name here\"/>"
  ++ "<input type=\"file\" name=\"avatar\" />"
  ++ "<input type=\"submit\" />"
  ++ "</form>"

/-- The `nanohttp` `@html` decorator around a handler that returns normally:
status 200 together with the rendered page. -/
def htmlStatus (page : String) : Nat × String := (200, page)

/-- `Root.get` (`restfulpy_demo.py` lines 119-127): build a `MasterPageView`
titled `Index`, append the form markup, return it under the `@html`
decorator. -/
def Root.get : Nat × String :=
  htmlStatus (MasterPageView.render "Index" Root.formBody)

/-- C7: every GET of `/` succeeds with status 200 and an HTML page built by
`MasterPageView` titled `Index`, containing a multipart form posting to `/`
with a text input named `name`, a file input named `avatar` and a submit
input. -/
theorem root_get_index_page :
    Root.get.1 = 200 ∧
      Root.get.2 = MasterPageView.render "Index" Root.formBody ∧
      strContains Root.get.2
        "<form method=\"POST\" action=\"/\" enctype=\"multipart/form-data\">" = true ∧
      strContains Root.get.2 "<title>Index</title>" = true ∧
      strContains Root.get.2 "<input type=\"text\" name=\"name\" value=\"Your Name here\"/>" = true ∧
      strContains Root.get.2 "<input type=\"file\" name=\"avatar\" />" = true ∧
      strContains Root.get.2 "<input type=\"submit\" />" = true := by
  refine ⟨rfl, rfl, ?_, ?_, ?_, ?_, ?_⟩ <;> decide

/-- C8: for every title `t` and body `b` the rendered page is exactly
`'<!DOCTYPE html><head><meta charset="utf-8"><title>' + t + '</title>' + b +
'</body>'` — the class attribute never received the dead `'</head><body>'`
literal of line 98, so the page the demo renders contains neither `'</head>'`
nor `'<body>'`. -/
theorem master_page_renders_without_head_close :
    (∀ t b : String, MasterPageView.render t b =
      "<!DOCTYPE html><head><meta charset=\"utf-8\"><title>" ++ t ++ "</title>"
        ++ b ++ "</body>") ∧
      strContains (MasterPageView.render "Index" Root.formBody) "</head>" = false ∧
      strContains (MasterPageView.render "Index" Root.formBody) "<body>" = false := by
  refine ⟨fun t b => rfl, by decide, by decide⟩

/-! ## The file-system store's public URLs and the avatar accessors -/

/-- Removal of trailing `'/'` characters, Python's `rstrip('/')`, over
character lists. -/
def rstripSlashChars (l : List Char) : List Char :=
  (l.reverse.dropWhile (fun c => c == '/')).reverse

/-- String-level `rstrip('/')`. -/
def rstripSlash (s : String) : String := ⟨rstripSlashChars s.data⟩

theorem rstrip_no_trailing (l : List Char) (h : l.getLast? ≠ some '/') :
    rstripSlashChars l = l := by
  unfold rstripSlashChars
  cases hrev : l.reverse with
  | nil =>
    have hl : l = [] := by simpa using congrArg List.reverse hrev
    simp [hl]
  | cons c cs =>
    have hc : c ≠ '/' := by
      intro hcEq
      apply h
      rw [← List.head?_reverse, hrev, hcEq]
      rfl
    simp [List.dropWhile_cons, hc]
    have hl : l = cs.reverse ++ [c] := by simpa using congrArg List.reverse hrev
    exact hl.symm

/-- The file-system store the demo registers: a local directory and a base
URL (`restfulpy_demo.py` lines 174-182 with the `storage` settings). -/
structure FileSystemStore where
  rootPath : String
  baseUrl : String

/-- An attachment as persisted in the JSON column: its stored path and the
store timestamp `locate` appends as a cache buster. -/
structure StoredFile where
  path : String
  timestamp : String

/-- Modelled from the spec: `FileSystemStore.locate` builds the public URL of
an attachment as the base URL stripped of trailing slashes, a `/`, the stored
path, and the `?_ts=` timestamp query parameter, as `test_file_list` asserts
with `'%s/%s?_ts=%s' % (base_url, path, timestamp)`. -/
def FileSystemStore.locate (store : FileSystemStore) (f : StoredFile) : String :=
  rstripSlash store.baseUrl ++ "/" ++ f.path ++ "?_ts=" ++ f.timestamp

/-- C9: for every store whose base URL does not end in a slash, `locate`
returns exactly `base_url + '/' + path + '?_ts=' + timestamp`. -/
theorem locate_is_base_url_slash_path_ts (store : FileSystemStore) (f : StoredFile)
    (h : store.baseUrl.data.getLast? ≠ some '/') :
    store.locate f = store.baseUrl ++ "/" ++ f.path ++ "?_ts=" ++ f.timestamp := by
  obtain ⟨root, bu⟩ := store
  obtain ⟨lb⟩ := bu
  unfold FileSystemStore.locate rstripSlash
  rw [rstrip_no_trailing _ h]

/-- Witness for `locate_is_base_url_slash_path_ts` at the demo's configured
base URL. -/
theorem locate_is_base_url_slash_path_ts_witness :
    (FileSystemStore.mk "restfulpy_demo/data/assets" "http://localhost:8080/assets").locate
        (StoredFile.mk "avatar/a.jpg" "100") =
      "http://localhost:8080/assets" ++ "/" ++ "avatar/a.jpg" ++ "?_ts=" ++ "100" :=
  locate_is_base_url_slash_path_ts
    (FileSystemStore.mk "restfulpy_demo/data/assets" "http://localhost:8080/assets")
    (StoredFile.mk "avatar/a.jpg" "100") (by decide)

/-- The store the demo's `initialize_orm` registers as default: the
`storage` settings of `Restfulpydemo.__configuration__`. -/
def demoStore : FileSystemStore :=
  ⟨"restfulpy_demo/data/assets", "http://localhost:8080/assets"⟩

/-- The `Person` record as the avatar accessors see it: the mapped `_avatar`
column is either `NULL` or the persisted attachment (a non-empty dict in
Python, hence truthy exactly when present). -/
structure PersonState where
  avatarColumn : Option StoredFile

/-- `Person._get_avatar` (`restfulpy_demo.py` lines 87-88):
`self._avatar.locate() if self._avatar else None`. -/
def personGetAvatar (st : PersonState) : Option String :=
  match st.avatarColumn with
  | some a => some (demoStore.locate a)
  | none => none

/-- C10: assigning `None` to `Person.avatar` bypasses validation and stores
`None` without raising, and the getter returns `None` exactly when `_avatar`
is absent and `_avatar.locate()` otherwise, so reading `avatar` only ever
yields a URL string or `None`, never an `Avatar` object. -/
theorem avatar_none_bypass_and_getter (st : PersonState) :
    setAvatar none = Except.ok none ∧
      personGetAvatar st = Option.map demoStore.locate st.avatarColumn ∧
      (st.avatarColumn = none → personGetAvatar st = none) ∧
      (∀ a, st.avatarColumn = some a →
        personGetAvatar st = some (demoStore.locate a)) := by
  refine ⟨rfl, ?_, ?_, ?_⟩
  · cases h : st.avatarColumn <;> simp [personGetAvatar, h]
  · intro h
    simp [personGetAvatar, h]
  · intro a h
    simp [personGetAvatar, h]

/-- Witness for `avatar_none_bypass_and_getter` on an empty and a populated
record. -/
theorem avatar_none_bypass_and_getter_witness :
    personGetAvatar ⟨none⟩ = none ∧
      personGetAvatar ⟨some (StoredFile.mk "avatar/a.jpg" "7")⟩ =
        some (demoStore.locate (StoredFile.mk "avatar/a.jpg" "7")) :=
  ⟨(avatar_none_bypass_and_getter ⟨none⟩).2.2.1 rfl,
    (avatar_none_bypass_and_getter ⟨some (StoredFile.mk "avatar/a.jpg" "7")⟩).2.2.2
      (StoredFile.mk "avatar/a.jpg" "7") rfl⟩
